import Mathlib

/-
Verification of the attempt-orchestration logic of `src/jlc.py`:
the per-attempt result record, the task client (`JLCClient`), the
single-attempt runner (`sign_in_account`), the two-pass retry
orchestrator (`process_single_account`, `execute_final_retry_for_failed_accounts`)
and the final summary fold in `main`.

Modelling conventions: every external effect (HTTP responses, browser/UI
outcomes, credential extraction) is supplied by an explicit environment
value, so each Python function becomes a pure Lean function of its
environment.  Python dictionaries become structures; machine integers are
`Int`/`Nat` (Python integers are unbounded, so no wraparound is modelled);
fallible lookups become `Option`.
-/

namespace JLC

/-- One attempt's result record, mirroring the `result` dictionary built at
the top of `sign_in_account` (src/jlc.py lines 444-458).  The merged
per-account result of `process_single_account` uses the same shape. -/
structure AttemptResult where
  account_index : Nat
  nickname : String
  jindou_status : String
  jindou_success : Bool
  initial_jindou : Int
  final_jindou : Int
  jindou_reward : Int
  has_jindou_reward : Bool
  token_extracted : Bool
  secretkey_extracted : Bool
  retry_count : Nat
  is_final_retry : Bool
  password_error : Bool
deriving Repr, DecidableEq

/-- The freshly initialised result dictionary of `sign_in_account`
(lines 444-458): every field at its default, with the account index,
retry count and final-retry flag as passed in. -/
def initResult (idx rc : Nat) (fin : Bool) : AttemptResult :=
  { account_index := idx, nickname := "未知", jindou_status := "未知",
    jindou_success := false, initial_jindou := 0, final_jindou := 0,
    jindou_reward := 0, has_jindou_reward := false, token_extracted := false,
    secretkey_extracted := false, retry_count := rc, is_final_retry := fin,
    password_error := false }

/-- The `data` part of a successful sign-in response envelope
(`JLCClient.sign_in`, lines 246-247): whether the envelope's `success`
flag is set, and the optional `gainNum` field. -/
structure SignData where
  success : Bool
  gainNum : Option Int
deriving Repr, DecidableEq

/-- Environment of one `JLCClient.execute_full_process` run: the outcomes
of the HTTP calls it makes, in order.  `signCheck = none` models a failed
status-check request or a falsy envelope (`check_sign_status` returns
`None`); `signResp = none` models a failed or falsy sign-in envelope.
`points1`/`points2` are the two values `get_points` returns (that call
never fails: it returns 0 after exhausting its own retries). -/
structure ClientEnv where
  userInfoOk : Bool
  points1 : Int
  signCheck : Option Bool
  signResp : Option SignData
  voucherOk : Bool
  points2 : Int
deriving Repr, DecidableEq

/-- Mutable fields of `JLCClient` relevant to the task flow
(lines 150-154). -/
structure ClientState where
  initial_jindou : Int := 0
  final_jindou : Int := 0
  jindou_reward : Int := 0
  sign_status : String := "未知"
  has_reward : Bool := false
deriving Repr, DecidableEq

/-- Python truthiness of the `gainNum` field in `sign_in` (line 248,
`if gain_num:`): a present, nonzero integer. -/
def gainTruthy : Option Int → Bool
  | none => false
  | some n => n != 0

/-- `JLCClient.sign_in` (lines 240-271).  On a successful envelope with a
truthy `gainNum` the sign-in immediately succeeds; with a falsy `gainNum`
the bonus voucher is claimed (`receive_voucher`, lines 273-285, collapsed
to the boolean `voucherOk`) and claim success counts as sign-in success.
A failed request and a falsy envelope both end in status 签到失败. -/
def sign_in (cenv : ClientEnv) (s : ClientState) : Bool × ClientState :=
  match cenv.signResp with
  | some d =>
    if d.success then
      if gainTruthy d.gainNum then
        (true, { s with sign_status := "签到成功" })
      else
        let s1 := { s with has_reward := true }
        if cenv.voucherOk then (true, { s1 with sign_status := "领取奖励成功" })
        else (false, { s1 with sign_status := "领取奖励失败" })
    else (false, { s with sign_status := "签到失败" })
  | none => (false, { s with sign_status := "签到失败" })

/-- `JLCClient.execute_full_process` (lines 302-342): profile fetch, first
balance read, tri-state sign check, optional sign-in, second balance read,
then `calculate_jindou_difference` (line 289: `jindou_reward :=
final_jindou - initial_jindou`).  Early failures return `False` without
reading the final balance or computing the difference. -/
def execute_full_process (cenv : ClientEnv) : Bool × ClientState :=
  if !cenv.userInfoOk then (false, {}) else
  let s1 : ClientState := { initial_jindou := cenv.points1 }
  match cenv.signCheck with
  | none => (false, { s1 with sign_status := "检查失败" })
  | some true =>
    let s2 := { s1 with sign_status := "已签到过" }
    let s3 := { s2 with final_jindou := cenv.points2 }
    (true, { s3 with jindou_reward := s3.final_jindou - s3.initial_jindou })
  | some false =>
    let s2 := { s1 with sign_status := "未签到" }
    let out := sign_in cenv s2
    if !out.1 then (false, out.2)
    else
      let s3 := { out.2 with final_jindou := cenv.points2 }
      (true, { s3 with jindou_reward := s3.final_jindou - s3.initial_jindou })

/-- The two session headers that `get_points` refreshes on failure
(lines 206-211). -/
structure Headers where
  accesstoken : String
  secretkey : String
deriving Repr, DecidableEq

/-- The header substitution at the end of one `get_points` refresh
(lines 206-211): each of the re-extracted token and secret key is written
into the headers only when its extraction succeeded. -/
def applyRefresh (p : Option String × Option String) (h : Headers) : Headers :=
  let h1 := match p.1 with
    | some t => { h with accesstoken := t }
    | none => h
  match p.2 with
  | some s => { h1 with secretkey := s }
  | none => h1

/-- The retry loop of `JLCClient.get_points` (lines 187-216).  `send j h`
is the outcome of the balance request of attempt `j` under headers `h`
(`none` = failed request or falsy envelope); `refresh j` is what the
session refresh after a failed attempt `j` re-extracts.  Returns the
balance together with the number of requests made; after the last failed
attempt no refresh happens and 0 is returned. -/
def getPointsGo (send : Nat → Headers → Option Int)
    (refresh : Nat → Option String × Option String) :
    Nat → Nat → Headers → Int × Nat
  | 0, _, _ => (0, 0)
  | fuel+1, j, h =>
    match send j h with
    | some v => (v, 1)
    | none =>
      if fuel = 0 then (0, 1)
      else
        let out := getPointsGo send refresh fuel (j+1) (applyRefresh (refresh j) h)
        (out.1, out.2 + 1)

/-- `JLCClient.get_points` with its `max_retries = 5` attempt ceiling
(line 190). -/
def get_points (send : Nat → Headers → Option Int)
    (refresh : Nat → Option String × Option String) (h : Headers) : Int × Nat :=
  getPointsGo send refresh 5 0 h

/-- Headers in force at the start of attempt `j` of `get_points`, assuming
all earlier attempts failed: the initial headers with the first `j`
refresh substitutions applied. -/
def headersAt (refresh : Nat → Option String × Option String) (h : Headers) :
    Nat → Headers
  | 0 => h
  | j+1 => applyRefresh (refresh j) (headersAt refresh h j)

/-- Environment of one `sign_in_account` run (lines 413-668).  Each `Ok`
flag is false when the corresponding step raises; `createOk` covers the
`webdriver.Chrome` construction (line 438) and `hideOk` the
anti-detection `execute_script` (line 439), both of which run before the
`try` block.  `loadOk` covers the initial page load and URL wait inside
the `try` (lines 462-465; false models an exception caught at line 661).
`loggedIn` is the URL check of line 469, `fillOk`/`clickOk` the login
form steps, `pwdErr1`/`sliderPwdErr` the `check_password_error` probes
before and after the slider, `jumped` the 15-second redirect poll.
`token`/`secret` are the credential extraction results (`with_retry`
absorbs their failures into `None`), and `client` drives the task calls. -/
structure SignInEnv where
  createOk : Bool
  hideOk : Bool
  loadOk : Bool
  loggedIn : Bool
  fillOk : Bool
  clickOk : Bool
  pwdErr1 : Bool
  sliderPwdErr : Bool
  jumped : Bool
  token : Option String
  secret : Option String
  client : ClientEnv
deriving Repr, DecidableEq

/-- The shared tail of both branches of `sign_in_account` (lines 474-502
and 631-659): record the extraction flags, and if both credentials are
present run `JLCClient.execute_full_process` and copy its state into the
result; otherwise mark the status as Token提取失败. -/
def runTask (env : SignInEnv) (r0 : AttemptResult) : AttemptResult :=
  let r1 := { r0 with token_extracted := env.token.isSome,
                      secretkey_extracted := env.secret.isSome }
  match env.token, env.secret with
  | some _, some _ =>
    let out := execute_full_process env.client
    { r1 with
      jindou_success := out.1, jindou_status := out.2.sign_status
      initial_jindou := out.2.initial_jindou, final_jindou := out.2.final_jindou
      jindou_reward := out.2.jindou_reward, has_jindou_reward := out.2.has_reward }
  | _, _ => { r1 with jindou_status := "Token提取失败" }

/-- The body of the `try` block of `sign_in_account` (lines 460-663),
producing the attempt's result record on every path: absorbed exception
(执行异常), already-logged-in task run, login-form failures (登录失败),
password-error detection before or after the slider (密码错误 with the
permanent flag), redirect timeout (跳转失败), or the login-then-task path. -/
def signInBody (env : SignInEnv) (idx rc : Nat) (fin : Bool) : AttemptResult :=
  let r0 := initResult idx rc fin
  if !env.loadOk then { r0 with jindou_status := "执行异常" }
  else if env.loggedIn then runTask env r0
  else if !env.fillOk then { r0 with jindou_status := "登录失败" }
  else if !env.clickOk then { r0 with jindou_status := "登录失败" }
  else if env.pwdErr1 then { r0 with password_error := true, jindou_status := "密码错误" }
  else if env.sliderPwdErr then { r0 with password_error := true, jindou_status := "密码错误" }
  else if !env.jumped then { r0 with jindou_status := "跳转失败" }
  else runTask env r0

/-- How one `sign_in_account` call ends at its caller: either an unhandled
exception escapes, or a result record is returned. -/
inductive RunOutcome where
  | escaped
  | returned (r : AttemptResult)
deriving Repr, DecidableEq

/-- `sign_in_account` (lines 413-668) as seen by the orchestrator:
the returned value or an escaped exception, whether the browser session
was created, and whether it was released (`driver.quit()` in the
`finally` clause, line 665).  The driver construction (line 438) and the
anti-detection script (line 439) run before the `try`/`finally`, so an
exception there escapes — and in the second case the created session is
never released. -/
def sign_in_account (env : SignInEnv) (idx rc : Nat) (fin : Bool) :
    RunOutcome × Bool × Bool :=
  if !env.createOk then (RunOutcome.escaped, false, false)
  else if !env.hideOk then (RunOutcome.escaped, true, false)
  else (RunOutcome.returned (signInBody env idx rc fin), true, true)

/-- `should_retry` (lines 670-673): retry while the jindou task has not
succeeded and no password error was recorded. -/
def should_retry (mergedJindou pwd : Bool) : Bool :=
  !mergedJindou && !pwd

/-- `max_retries = 3` in `process_single_account` (line 677). -/
def max_retries : Nat := 3

/-- The initial `merged_result` dictionary of `process_single_account`
(lines 678-692): all defaults. -/
def initMerged (idx : Nat) : AttemptResult := initResult idx 0 false

/-- One non-password-error merge of an attempt into the running merged
state (lines 706-726): `flag` is `merged_success['jindou']`.  Success
fields are copied only on a first success; nickname, token and secret
flags are filled forward when still at their defaults; the retry count is
always updated to the attempt's. -/
def foldStep (flag : Bool) (m r : AttemptResult) : Bool × AttemptResult :=
  let p :=
    if r.jindou_success && !flag then
      (true, { m with
        jindou_status := r.jindou_status
        initial_jindou := r.initial_jindou, final_jindou := r.final_jindou
        jindou_reward := r.jindou_reward, has_jindou_reward := r.has_jindou_reward })
    else (flag, m)
  let m2 := if p.2.nickname = "未知" ∧ r.nickname ≠ "未知" then
      { p.2 with nickname := r.nickname } else p.2
  let m3 := if !m2.token_extracted && r.token_extracted then
      { m2 with token_extracted := r.token_extracted } else m2
  let m4 := if !m3.secretkey_extracted && r.secretkey_extracted then
      { m3 with secretkey_extracted := r.secretkey_extracted } else m3
  (p.1, { m4 with retry_count := r.retry_count })

/-- The password-error break of `process_single_account` (lines 699-704):
mark the permanent error and reset status and nickname; nothing else of
the merged state is touched. -/
def pwdReset (m : AttemptResult) : AttemptResult :=
  { m with password_error := true, jindou_status := "密码错误", nickname := "未知" }

/-- The pass-1 call `sign_in_account(..., retry_count=attempt)` (line 697)
abstracted by an outcome oracle: `env k` is the result of attempt `k`,
whose `account_index`, `retry_count` and `is_final_retry` fields are the
ones `sign_in_account` was given (it never reassigns them). -/
def attemptCall (env : Nat → AttemptResult) (idx k : Nat) : AttemptResult :=
  { env k with account_index := idx, retry_count := k, is_final_retry := false }

/-- The retry loop of `process_single_account` (lines 696-733).  `fuel` is
the number of loop iterations still available (4 at the top call), `k` the
current attempt number.  Returns `merged_success['jindou']`, the merged
result, and the trace of attempt results in order. -/
def processGo (env : Nat → AttemptResult) (idx : Nat) :
    Nat → Nat → Bool → AttemptResult → Bool × AttemptResult × List AttemptResult
  | 0, _, flag, m => (flag, m, [])
  | fuel+1, k, flag, m =>
    let r := attemptCall env idx k
    if r.password_error then (flag, pwdReset m, [r])
    else
      let fm := foldStep flag m r
      if should_retry fm.1 fm.2.password_error && decide (k < max_retries) then
        let rest := processGo env idx fuel (k+1) fm.1 fm.2
        (rest.1, rest.2.1, r :: rest.2.2)
      else (fm.1, fm.2, [r])

/-- `process_single_account` (lines 675-738): run up to `max_retries + 1`
attempts, fold them, and finally write `merged_success['jindou']` into the
merged result's success field (line 736).  Also returns the attempt trace. -/
def process_single_account (env : Nat → AttemptResult) (idx : Nat) :
    AttemptResult × List AttemptResult :=
  let out := processGo env idx 4 0 false (initMerged idx)
  ({ out.2.1 with jindou_success := out.1 }, out.2.2)

/-- The failed-account filter of the final retry and of `main`
(lines 749, 967, 1000): not succeeded and not a password error. -/
def failedPred (r : AttemptResult) : Bool :=
  !r.jindou_success && !r.password_error

/-- The collection loop of `execute_final_retry_for_failed_accounts`
(lines 747-756): positions of the still-failing, non-password-error
results, in order. -/
def collectFailed (res : Nat → AttemptResult) (n : Nat) : List Nat :=
  (List.range n).filter fun i => failedPred (res i)

/-- The pass-2 call `sign_in_account(..., retry_count=prev+1,
is_final_retry=True)` (lines 774-781) abstracted by an outcome oracle
keyed by account index. -/
def finalCall (fenv : Nat → AttemptResult) (accIdx rc : Nat) : AttemptResult :=
  { fenv accIdx with account_index := accIdx, retry_count := rc, is_final_retry := true }

/-- The merge section of the final retry (lines 796-814): first-success
copy of the jindou fields, then fill-forward of nickname, token and
secret flags. -/
def finalMerge (orig final : AttemptResult) : AttemptResult :=
  let m1 :=
    if final.jindou_success && !orig.jindou_success then
      { orig with
        jindou_success := true, jindou_status := final.jindou_status
        initial_jindou := final.initial_jindou, final_jindou := final.final_jindou
        jindou_reward := final.jindou_reward, has_jindou_reward := final.has_jindou_reward }
    else orig
  let m2 := if m1.nickname = "未知" ∧ final.nickname ≠ "未知" then
      { m1 with nickname := final.nickname } else m1
  let m3 := if !m2.token_extracted && final.token_extracted then
      { m2 with token_extracted := final.token_extracted } else m2
  if !m3.secretkey_extracted && final.secretkey_extracted then
    { m3 with secretkey_extracted := final.secretkey_extracted } else m3

/-- The per-account update of the final retry (lines 783-817): a
password error discovered in pass 2 invalidates the account (status and
nickname reset, nothing merged); otherwise the merge section runs.  In
both cases `is_final_retry` is set and `retry_count` becomes the
snapshotted previous count plus one. -/
def finalUpdate (prev : Nat) (orig final : AttemptResult) : AttemptResult :=
  if final.password_error then
    { orig with
      password_error := true, jindou_status := "密码错误"
      nickname := "未知", is_final_retry := true, retry_count := prev + 1 }
  else
    { finalMerge orig final with is_final_retry := true, retry_count := prev + 1 }

/-- One iteration of the final-retry loop (lines 770-817) over the state
(current results function, attempts made so far): run the one extra
attempt for collected position `i` — with the retry count snapshotted
from the pre-loop results `res` — and update position `i` in place. -/
def finalStep (fenv res : Nat → AttemptResult)
    (st : (Nat → AttemptResult) × List AttemptResult) (i : Nat) :
    (Nat → AttemptResult) × List AttemptResult :=
  let prev := (res i).retry_count
  let fr := finalCall fenv (res i).account_index (prev + 1)
  (Function.update st.1 i (finalUpdate prev (st.1 i) fr), st.2 ++ [fr])

/-- `execute_final_retry_for_failed_accounts` (lines 740-826): collect the
failing positions, then run exactly one extra attempt for each, updating
`all_results` in place.  Returns the updated results and the list of the
attempt results produced by the pass-2 calls. -/
def finalRetryFun (fenv res : Nat → AttemptResult) (n : Nat) :
    (Nat → AttemptResult) × List AttemptResult :=
  (collectFailed res n).foldl (finalStep fenv res) (res, [])

/-- The guard in `main` (lines 966-970): the final retry runs only when
some account is still failing without a password error. -/
def mainFinalPass (fenv res : Nat → AttemptResult) (n : Nat) :
    (Nat → AttemptResult) × List AttemptResult :=
  if (List.range n).any (fun i => failedPred (res i)) then finalRetryFun fenv res n
  else (res, [])

/-- The statistics derived by the summary section of `main`
(lines 978-1051). -/
structure SummaryStats where
  jindou_success_count : Nat
  total_jindou_reward : Int
  jindou_rate : ℚ
  failed_jindou : List Nat
  password_error_accounts : List Nat
deriving Repr, DecidableEq

/-- One iteration of the summary loop of `main` (lines 986-1029) over the
accumulator (success count, reward sum, failed list, password-error
list).  The success count is carried through unchanged: `main`
initialises `jindou_success_count = 0` (line 978) and never increments
it.  The reward sum only grows, by positive rewards of non-password-error
results (lines 1018-1023). -/
def summaryFold (st : Nat × Int × List Nat × List Nat) (r : AttemptResult) :
    Nat × Int × List Nat × List Nat :=
  let pwdL := if r.password_error then st.2.2.2 ++ [r.account_index] else st.2.2.2
  let failL := if !r.jindou_success && !r.password_error then
      st.2.2.1 ++ [r.account_index] else st.2.2.1
  let rew := if !r.password_error && decide (r.jindou_reward > 0) then
      st.2.1 + r.jindou_reward else st.2.1
  (st.1, rew, failL, pwdL)

/-- The summary section of `main` (lines 978-1051): fold the final merged
results, then compute the success rate `(count / total) * 100` (0 when the
total is 0, line 1040) and keep the two failure partitions. -/
def summarize (results : List AttemptResult) (total : Nat) : SummaryStats :=
  let st := results.foldl summaryFold (0, 0, [], [])
  { jindou_success_count := st.1,
    total_jindou_reward := st.2.1,
    jindou_rate := if total > 0 then ((st.1 : ℚ) / (total : ℚ)) * 100 else 0,
    failed_jindou := st.2.2.1,
    password_error_accounts := st.2.2.2 }

theorem foldStep_fst (flag : Bool) (m r : AttemptResult) :
    (foldStep flag m r).1 = (flag || r.jindou_success) := by
  simp only [foldStep]
  cases hr : r.jindou_success <;> cases flag <;> simp

theorem foldStep_password_error (flag : Bool) (m r : AttemptResult) :
    (foldStep flag m r).2.password_error = m.password_error := by
  simp only [foldStep] <;> (repeat' split) <;> simp_all

theorem foldStep_retry_count (flag : Bool) (m r : AttemptResult) :
    (foldStep flag m r).2.retry_count = r.retry_count := by
  simp only [foldStep] <;> (repeat' split) <;> simp_all

theorem foldStep_preserves_success_fields (m r : AttemptResult) :
    (foldStep true m r).2.jindou_status = m.jindou_status ∧
    (foldStep true m r).2.initial_jindou = m.initial_jindou ∧
    (foldStep true m r).2.final_jindou = m.final_jindou ∧
    (foldStep true m r).2.jindou_reward = m.jindou_reward ∧
    (foldStep true m r).2.has_jindou_reward = m.has_jindou_reward := by
  simp only [foldStep, Bool.not_true, Bool.and_false, Bool.false_eq_true, if_false] <;>
    (repeat' split) <;> simp_all

theorem foldStep_nickname (flag : Bool) (m r : AttemptResult)
    (hm : m.nickname = "未知") (hr : r.nickname = "未知") :
    (foldStep flag m r).2.nickname = "未知" := by
  simp only [foldStep] <;> (repeat' split) <;> simp_all

theorem attemptCall_retry_count (env : Nat → AttemptResult) (idx k : Nat) :
    (attemptCall env idx k).retry_count = k := rfl

/-- Induction workhorse for the pass-1 loop, under its invariants
(`k + fuel = 4`, success flag still false, no password error recorded yet):
the trace is nonempty with at most `fuel` attempts numbered consecutively
from `k`; every attempt before the last was a transient failure; the loop
either exhausted attempt number 3 or stopped at a success or password
error; and a recorded password error means the success flag is false, the
status and nickname were reset, and the last attempt is the one carrying
the password error. -/
theorem processGo_spec (env : Nat → AttemptResult) (idx : Nat) :
    ∀ fuel k flag m, k + fuel = 4 → 1 ≤ fuel → flag = false →
      m.password_error = false →
      1 ≤ (processGo env idx fuel k flag m).2.2.length ∧
      (processGo env idx fuel k flag m).2.2.length ≤ fuel ∧
      (processGo env idx fuel k flag m).2.2.map (fun r => r.retry_count) =
        List.range' k (processGo env idx fuel k flag m).2.2.length ∧
      ((processGo env idx fuel k flag m).2.2.dropLast.all fun r =>
        !r.jindou_success && !r.password_error) = true ∧
      (k + (processGo env idx fuel k flag m).2.2.length = 4 ∨
        (match (processGo env idx fuel k flag m).2.2.getLast? with
         | some r => r.jindou_success = true ∨ r.password_error = true
         | none => False)) ∧
      ((processGo env idx fuel k flag m).2.1.password_error = true →
        (processGo env idx fuel k flag m).1 = false ∧
        (processGo env idx fuel k flag m).2.1.jindou_status = "密码错误" ∧
        (processGo env idx fuel k flag m).2.1.nickname = "未知" ∧
        (match (processGo env idx fuel k flag m).2.2.getLast? with
         | some r => r.password_error = true
         | none => False)) := by
  intro fuel
  induction fuel with
  | zero => intro k flag m hk h1 _ _; exact absurd h1 (by omega)
  | succ fuel ih =>
    intro k flag m hk h1 hflag hpe
    cases hpw : (attemptCall env idx k).password_error with
    | true =>
      simp only [processGo, hpw, if_true]
      refine ⟨by simp, by simp, by simp [attemptCall_retry_count, List.range'], by simp, ?_, ?_⟩
      · exact Or.inr (by simp [hpw])
      · intro _
        exact ⟨hflag, rfl, rfl, by simp [hpw]⟩
    | false =>
      have hf2 : (foldStep flag m (attemptCall env idx k)).2.password_error = false := by
        rw [foldStep_password_error]; exact hpe
      cases hs : (attemptCall env idx k).jindou_success with
      | false =>
        have hf1 : (foldStep flag m (attemptCall env idx k)).1 = false := by
          rw [foldStep_fst, hflag, hs]; rfl
        by_cases hk3 : k < max_retries
        · have hcond : (should_retry (foldStep flag m (attemptCall env idx k)).1
              (foldStep flag m (attemptCall env idx k)).2.password_error
              && decide (k < max_retries)) = true := by
            simp [should_retry, hf1, hf2, hk3]
          simp only [processGo, hpw, Bool.false_eq_true, if_false, hcond, if_true]
          have hkf : (k+1) + fuel = 4 := by omega
          have hfe : 1 ≤ fuel := by
            have : k < 3 := hk3
            omega
          obtain ⟨ih1, ih2, ih3, ih4, ih5, ih6⟩ :=
            ih (k+1) (foldStep flag m (attemptCall env idx k)).1
              (foldStep flag m (attemptCall env idx k)).2 hkf hfe hf1 hf2
          set rest := processGo env idx fuel (k+1)
            (foldStep flag m (attemptCall env idx k)).1
            (foldStep flag m (attemptCall env idx k)).2 with hrest
          obtain ⟨a, t, hat⟩ := List.exists_cons_of_ne_nil
            (List.ne_nil_of_length_pos (by omega : 0 < rest.2.2.length))
          refine ⟨by simp, by simp; omega, ?_, ?_, ?_, ?_⟩
          · simp only [List.map_cons, attemptCall_retry_count, ih3, List.length_cons]
            rfl
          · rw [hat, List.dropLast_cons_of_ne_nil (by simp)]
            simp only [List.all_cons, hat ▸ ih4, Bool.and_true]
            simp [hs, hpw]
          · rcases ih5 with h | h
            · exact Or.inl (by simp; omega)
            · refine Or.inr ?_
              rw [hat] at h ⊢
              simpa [List.getLast?_cons_cons] using h
          · intro hmp
            obtain ⟨w1, w2, w3, w4⟩ := ih6 hmp
            refine ⟨w1, w2, w3, ?_⟩
            rw [hat] at w4 ⊢
            simpa [List.getLast?_cons_cons] using w4
        · have hcond : (should_retry (foldStep flag m (attemptCall env idx k)).1
              (foldStep flag m (attemptCall env idx k)).2.password_error
              && decide (k < max_retries)) = false := by
            simp [should_retry, hk3]
          simp only [processGo, hpw, Bool.false_eq_true, if_false, hcond]
          refine ⟨by simp, by simp, by simp [attemptCall_retry_count, List.range'],
            by simp, ?_, ?_⟩
          · have : k = 3 := by
              simp only [max_retries] at hk3
              omega
            exact Or.inl (by simp [this])
          · intro hmp
            rw [hf2] at hmp
            exact absurd hmp (by simp)
      | true =>
        have hf1 : (foldStep flag m (attemptCall env idx k)).1 = true := by
          rw [foldStep_fst, hflag, hs]; rfl
        have hcond : (should_retry (foldStep flag m (attemptCall env idx k)).1
            (foldStep flag m (attemptCall env idx k)).2.password_error
            && decide (k < max_retries)) = false := by
          simp [should_retry, hf1]
        simp only [processGo, hpw, Bool.false_eq_true, if_false, hcond]
        refine ⟨by simp, by simp, by simp [attemptCall_retry_count, List.range'],
          by simp, ?_, ?_⟩
        · exact Or.inr (by simp [hs])
        · intro hmp
          rw [hf2] at hmp
          exact absurd hmp (by simp)

/-- If no attempt ever reports a nickname (as is the case for
`sign_in_account`, which never writes the field), the folded merged
nickname stays at its default. -/
theorem processGo_nickname (env : Nat → AttemptResult) (idx : Nat)
    (hn : ∀ j, (env j).nickname = "未知") :
    ∀ fuel k flag m, m.nickname = "未知" →
      (processGo env idx fuel k flag m).2.1.nickname = "未知" := by
  intro fuel
  induction fuel with
  | zero => intro k flag m hm; exact hm
  | succ fuel ih =>
    intro k flag m hm
    have hr : (attemptCall env idx k).nickname = "未知" := hn k
    cases hpw : (attemptCall env idx k).password_error with
    | true => simp only [processGo, hpw, if_true]; rfl
    | false =>
      simp only [processGo, hpw, Bool.false_eq_true, if_false]
      split
      · exact ih (k+1) _ _ (foldStep_nickname _ _ _ hm hr)
      · exact foldStep_nickname _ _ _ hm hr

theorem finalStep_foldl_apply (fenv res : Nat → AttemptResult) :
    ∀ (l : List Nat), l.Nodup →
      ∀ (st : (Nat → AttemptResult) × List AttemptResult),
        (∀ i ∈ l, st.1 i = res i) → ∀ j,
        (l.foldl (finalStep fenv res) st).1 j =
          if j ∈ l then
            finalUpdate (res j).retry_count (res j)
              (finalCall fenv (res j).account_index ((res j).retry_count + 1))
          else st.1 j := by
  intro l
  induction l with
  | nil => intro _ st _ j; simp
  | cons i t ih =>
    intro hnd st hst j
    have hit : i ∉ t := (List.nodup_cons.mp hnd).1
    have hi : st.1 i = res i := hst i (List.mem_cons_self i t)
    have hst' : ∀ x ∈ t, (finalStep fenv res st i).1 x = res x := by
      intro x hx
      have hxi : x ≠ i := fun h => hit (h ▸ hx)
      simp only [finalStep, Function.update_noteq hxi]
      exact hst x (List.mem_cons_of_mem i hx)
    have := ih (List.nodup_cons.mp hnd).2 (finalStep fenv res st i) hst' j
    simp only [List.foldl_cons, this]
    by_cases hjt : j ∈ t
    · simp [hjt, List.mem_cons_of_mem i hjt]
    · by_cases hji : j = i
      · subst hji
        simp [hjt, List.mem_cons_self, finalStep, Function.update_same, hi]
      · simp only [hjt, if_false]
        simp only [finalStep, Function.update_noteq hji]
        simp [List.mem_cons, hji, hjt]

theorem finalStep_foldl_calls (fenv res : Nat → AttemptResult) :
    ∀ (l : List Nat) (st : (Nat → AttemptResult) × List AttemptResult),
      (l.foldl (finalStep fenv res) st).2 =
        st.2 ++ l.map (fun i => finalCall fenv (res i).account_index ((res i).retry_count + 1)) := by
  intro l
  induction l with
  | nil => intro st; simp
  | cons i t ih =>
    intro st
    simp only [List.foldl_cons, ih, List.map_cons]
    simp [finalStep]

theorem collectFailed_nodup (res : Nat → AttemptResult) (n : Nat) :
    (collectFailed res n).Nodup :=
  (List.nodup_range n).filter _

theorem mem_collectFailed (res : Nat → AttemptResult) (n j : Nat) :
    j ∈ collectFailed res n ↔ j < n ∧ failedPred (res j) = true := by
  simp [collectFailed, List.mem_filter, List.mem_range]

theorem finalRetryFun_apply (fenv res : Nat → AttemptResult) (n j : Nat) :
    (finalRetryFun fenv res n).1 j =
      if j ∈ collectFailed res n then
        finalUpdate (res j).retry_count (res j)
          (finalCall fenv (res j).account_index ((res j).retry_count + 1))
      else res j :=
  finalStep_foldl_apply fenv res (collectFailed res n) (collectFailed_nodup res n)
    (res, []) (fun _ _ => rfl) j

theorem finalRetryFun_calls (fenv res : Nat → AttemptResult) (n : Nat) :
    (finalRetryFun fenv res n).2 =
      (collectFailed res n).map
        (fun i => finalCall fenv (res i).account_index ((res i).retry_count + 1)) := by
  simpa using finalStep_foldl_calls fenv res (collectFailed res n) (res, [])

theorem collectFailed_eq_nil_of_any_false (res : Nat → AttemptResult) (n : Nat)
    (h : ((List.range n).any fun i => failedPred (res i)) = false) :
    collectFailed res n = [] := by
  apply List.filter_eq_nil_iff.mpr
  intro a ha
  have := List.any_eq_false.mp h a ha
  simpa using this

theorem mainFinalPass_apply (fenv res : Nat → AttemptResult) (n j : Nat) :
    (mainFinalPass fenv res n).1 j =
      if j ∈ collectFailed res n then
        finalUpdate (res j).retry_count (res j)
          (finalCall fenv (res j).account_index ((res j).retry_count + 1))
      else res j := by
  unfold mainFinalPass
  split
  · exact finalRetryFun_apply fenv res n j
  · next h =>
    have hnil := collectFailed_eq_nil_of_any_false res n (by simpa using h)
    simp [hnil]

theorem mainFinalPass_calls (fenv res : Nat → AttemptResult) (n : Nat) :
    (mainFinalPass fenv res n).2 =
      (collectFailed res n).map
        (fun i => finalCall fenv (res i).account_index ((res i).retry_count + 1)) := by
  unfold mainFinalPass
  split
  · exact finalRetryFun_calls fenv res n
  · next h =>
    have hnil := collectFailed_eq_nil_of_any_false res n (by simpa using h)
    simp [hnil]

theorem sign_in_preserves_balances (cenv : ClientEnv) (s : ClientState) :
    (sign_in cenv s).2.initial_jindou = s.initial_jindou ∧
    (sign_in cenv s).2.final_jindou = s.final_jindou ∧
    (sign_in cenv s).2.jindou_reward = s.jindou_reward := by
  unfold sign_in
  (repeat' split) <;> simp

theorem execute_full_process_delta (cenv : ClientEnv)
    (h : (execute_full_process cenv).1 = true ∨
      (execute_full_process cenv).2.initial_jindou = 0) :
    (execute_full_process cenv).2.jindou_reward =
      (execute_full_process cenv).2.final_jindou -
        (execute_full_process cenv).2.initial_jindou := by
  obtain ⟨p1, p2, p3⟩ := sign_in_preserves_balances cenv
    { initial_jindou := cenv.points1, sign_status := "未签到" }
  revert h
  simp only [execute_full_process]
  (repeat' split) <;> intro h <;> simp_all <;> omega

theorem runTask_nickname (env : SignInEnv) (r0 : AttemptResult) :
    (runTask env r0).nickname = r0.nickname := by
  unfold runTask
  (repeat' split) <;> rfl

theorem signInBody_nickname (env : SignInEnv) (idx rc : Nat) (fin : Bool) :
    (signInBody env idx rc fin).nickname = "未知" := by
  unfold signInBody
  (repeat' split) <;> (try rw [runTask_nickname]) <;> rfl

theorem signInBody_delta (env : SignInEnv) (idx rc : Nat) (fin : Bool)
    (h : (signInBody env idx rc fin).jindou_success = true ∨
      (signInBody env idx rc fin).initial_jindou = 0) :
    (signInBody env idx rc fin).jindou_reward =
      (signInBody env idx rc fin).final_jindou -
        (signInBody env idx rc fin).initial_jindou := by
  revert h
  simp only [signInBody, runTask]
  (repeat' split) <;> intro h <;>
    first
      | rfl
      | exact execute_full_process_delta env.client (by simpa using h)
      | simp_all

/-- Characterisation of the `get_points` retry loop: if the first `k`
requests fail (each made with the headers produced by the preceding
refreshes) and either `k = 5` (all attempts exhausted) or attempt `k`
succeeds with value `v`, then `get_points` returns 0 after 5 requests,
respectively `v` after `k + 1` requests. -/
theorem get_points_first_success (send : Nat → Headers → Option Int)
    (refresh : Nat → Option String × Option String) (h : Headers) (k : Nat) (v : Int)
    (hk : k ≤ 5)
    (hfail : ∀ j, j < k → send j (headersAt refresh h j) = none)
    (hstop : k = 5 ∨ send k (headersAt refresh h k) = some v) :
    get_points send refresh h = if k = 5 then (0, 5) else (v, k + 1) := by
  interval_cases k
  · have hs := hstop.resolve_left (by omega)
    simp only [headersAt] at hs
    simp [get_points, getPointsGo, hs]
  · have hs := hstop.resolve_left (by omega)
    have h0 := hfail 0 (by omega)
    simp only [headersAt] at hs h0
    simp [get_points, getPointsGo, hs, h0]
  · have hs := hstop.resolve_left (by omega)
    have h0 := hfail 0 (by omega)
    have h1 := hfail 1 (by omega)
    simp only [headersAt] at hs h0 h1
    simp [get_points, getPointsGo, hs, h0, h1]
  · have hs := hstop.resolve_left (by omega)
    have h0 := hfail 0 (by omega)
    have h1 := hfail 1 (by omega)
    have h2 := hfail 2 (by omega)
    simp only [headersAt] at hs h0 h1 h2
    simp [get_points, getPointsGo, hs, h0, h1, h2]
  · have hs := hstop.resolve_left (by omega)
    have h0 := hfail 0 (by omega)
    have h1 := hfail 1 (by omega)
    have h2 := hfail 2 (by omega)
    have h3 := hfail 3 (by omega)
    simp only [headersAt] at hs h0 h1 h2 h3
    simp [get_points, getPointsGo, hs, h0, h1, h2, h3]
  · have h0 := hfail 0 (by omega)
    have h1 := hfail 1 (by omega)
    have h2 := hfail 2 (by omega)
    have h3 := hfail 3 (by omega)
    have h4 := hfail 4 (by omega)
    simp only [headersAt] at h0 h1 h2 h3 h4
    simp [get_points, getPointsGo, h0, h1, h2, h3, h4]


theorem finalMerge_preserves_success_fields (orig final : AttemptResult)
    (h : orig.jindou_success = true) :
    (finalMerge orig final).jindou_success = true ∧
    (finalMerge orig final).jindou_status = orig.jindou_status ∧
    (finalMerge orig final).initial_jindou = orig.initial_jindou ∧
    (finalMerge orig final).final_jindou = orig.final_jindou ∧
    (finalMerge orig final).jindou_reward = orig.jindou_reward ∧
    (finalMerge orig final).has_jindou_reward = orig.has_jindou_reward := by
  simp only [finalMerge, h, Bool.not_true, Bool.and_false, Bool.false_eq_true, if_false] <;>
    (repeat' split) <;> simp_all

theorem finalMerge_nickname (orig final : AttemptResult)
    (h1 : orig.nickname = "未知") (h2 : final.nickname = "未知") :
    (finalMerge orig final).nickname = "未知" := by
  simp only [finalMerge] <;> (repeat' split) <;> simp_all

theorem finalUpdate_nickname (prev : Nat) (orig final : AttemptResult)
    (h1 : orig.nickname = "未知") (h2 : final.nickname = "未知") :
    (finalUpdate prev orig final).nickname = "未知" := by
  unfold finalUpdate
  split
  · rfl
  · exact finalMerge_nickname orig final h1 h2

/-- C9: for every account, pass 1 makes between 1 and 4 attempts, numbered
consecutively starting at 0 (so `attemptNumber` ranges over 0..3); every
attempt before the last was neither a success nor a password error (the
pass never continues past a stopping condition); and the pass ends either
with the attempt budget exhausted (4 attempts) or with a last attempt that
succeeded or recorded a permanent credential error. -/
theorem claim9_pass1_attempt_budget (env : Nat → AttemptResult) (idx : Nat) :
    1 ≤ (process_single_account env idx).2.length ∧
    (process_single_account env idx).2.length ≤ 4 ∧
    (process_single_account env idx).2.map (fun r => r.retry_count) =
      List.range (process_single_account env idx).2.length ∧
    ((process_single_account env idx).2.dropLast.all fun r =>
      !r.jindou_success && !r.password_error) = true ∧
    ((process_single_account env idx).2.length = 4 ∨
      (match (process_single_account env idx).2.getLast? with
       | some r => r.jindou_success = true ∨ r.password_error = true
       | none => False)) := by
  have hd : (process_single_account env idx).2 =
      (processGo env idx 4 0 false (initMerged idx)).2.2 := rfl
  rw [hd]
  obtain ⟨s1, s2, s3, s4, s5, _⟩ :=
    processGo_spec env idx 4 0 false (initMerged idx) (by omega) (by omega) rfl rfl
  refine ⟨s1, s2, ?_, s4, ?_⟩
  · rw [List.range_eq_range']
    exact s3
  · rcases s5 with h5 | h5
    · exact Or.inl (by omega)
    · exact Or.inr h5

/-- C3: the merge fold is idempotent once the merged result has succeeded.
For the pass-1 fold (`foldStep` with `merged_success` already true) and
for the pass-2 merge section (`finalMerge` on an already-succeeded merged
result), folding any further attempt — in particular a failing one —
leaves the success flag true and all success fields (status, balances,
reward delta, bonus flag) unchanged. -/
theorem claim3_merge_idempotent_after_success (m r orig final : AttemptResult)
    (h : orig.jindou_success = true) :
    (foldStep true m r).1 = true ∧
    (foldStep true m r).2.jindou_status = m.jindou_status ∧
    (foldStep true m r).2.initial_jindou = m.initial_jindou ∧
    (foldStep true m r).2.final_jindou = m.final_jindou ∧
    (foldStep true m r).2.jindou_reward = m.jindou_reward ∧
    (foldStep true m r).2.has_jindou_reward = m.has_jindou_reward ∧
    (finalMerge orig final).jindou_success = true ∧
    (finalMerge orig final).jindou_status = orig.jindou_status ∧
    (finalMerge orig final).initial_jindou = orig.initial_jindou ∧
    (finalMerge orig final).final_jindou = orig.final_jindou ∧
    (finalMerge orig final).jindou_reward = orig.jindou_reward ∧
    (finalMerge orig final).has_jindou_reward = orig.has_jindou_reward := by
  obtain ⟨f1, f2, f3, f4, f5⟩ := foldStep_preserves_success_fields m r
  obtain ⟨g1, g2, g3, g4, g5, g6⟩ := finalMerge_preserves_success_fields orig final h
  have fl : (foldStep true m r).1 = true := by
    rw [foldStep_fst]; simp
  exact ⟨fl, f1, f2, f3, f4, f5, g1, g2, g3, g4, g5, g6⟩

def claim3Merged : AttemptResult :=
  { initResult 1 2 false with
    jindou_status := "签到成功", initial_jindou := 100
    final_jindou := 105, jindou_reward := 5 }

def claim3Orig : AttemptResult :=
  { initResult 2 3 false with
    jindou_success := true, jindou_status := "签到成功"
    initial_jindou := 50, final_jindou := 55, jindou_reward := 5 }

def claim3FailingAttempt : AttemptResult :=
  { initResult 2 4 true with jindou_status := "执行异常" }

theorem claim3_witness :
    claim3Orig.jindou_success = true ∧
    ((foldStep true claim3Merged claim3FailingAttempt).1 = true ∧
    (foldStep true claim3Merged claim3FailingAttempt).2.jindou_status = claim3Merged.jindou_status ∧
    (foldStep true claim3Merged claim3FailingAttempt).2.initial_jindou = claim3Merged.initial_jindou ∧
    (foldStep true claim3Merged claim3FailingAttempt).2.final_jindou = claim3Merged.final_jindou ∧
    (foldStep true claim3Merged claim3FailingAttempt).2.jindou_reward = claim3Merged.jindou_reward ∧
    (foldStep true claim3Merged claim3FailingAttempt).2.has_jindou_reward = claim3Merged.has_jindou_reward ∧
    (finalMerge claim3Orig claim3FailingAttempt).jindou_success = true ∧
    (finalMerge claim3Orig claim3FailingAttempt).jindou_status = claim3Orig.jindou_status ∧
    (finalMerge claim3Orig claim3FailingAttempt).initial_jindou = claim3Orig.initial_jindou ∧
    (finalMerge claim3Orig claim3FailingAttempt).final_jindou = claim3Orig.final_jindou ∧
    (finalMerge claim3Orig claim3FailingAttempt).jindou_reward = claim3Orig.jindou_reward ∧
    (finalMerge claim3Orig claim3FailingAttempt).has_jindou_reward = claim3Orig.has_jindou_reward) :=
  ⟨rfl, claim3_merge_idempotent_after_success claim3Merged claim3FailingAttempt
    claim3Orig claim3FailingAttempt rfl⟩

/-- C5 evaluation: the summary fold of `main` never increments its
success counter.  On a single account whose final merged result has
`jindou_success = true` and a positive reward, the computed summary
reports 0 succeeded accounts and a 0 success rate (while the reward sum
and the two failure partitions behave as described). -/
def claim5Result : AttemptResult :=
  { initResult 1 0 false with
    jindou_success := true, jindou_status := "签到成功"
    initial_jindou := 100, final_jindou := 105, jindou_reward := 5 }

theorem claim5_summary_success_count_bug :
    claim5Result.jindou_success = true ∧
    summarize [claim5Result] 1 =
      { jindou_success_count := 0, total_jindou_reward := 5, jindou_rate := 0,
        failed_jindou := [], password_error_accounts := [] } := by
  constructor
  · rfl
  · norm_num [summarize, summaryFold, claim5Result, initResult]

def claim6CounterEnv : SignInEnv :=
  { createOk := true, hideOk := false, loadOk := true, loggedIn := true
    fillOk := true, clickOk := true, pwdErr1 := false, sliderPwdErr := false
    jumped := true, token := none, secret := none
    client := { userInfoOk := false, points1 := 0, signCheck := none
                signResp := none, voucherOk := false, points2 := 0 } }

/-- C6 counterexample: an exception in the anti-detection
`execute_script` (line 439), which runs after the browser session is
created (line 438) but before the `try` block, escapes `sign_in_account`
as an unhandled fault and the created session is never released. -/
theorem claim6_counterexample :
    (sign_in_account claim6CounterEnv 1 0 false).1 = RunOutcome.escaped ∧
    (sign_in_account claim6CounterEnv 1 0 false).2.1 = true ∧
    (sign_in_account claim6CounterEnv 1 0 false).2.2 = false :=
  ⟨rfl, rfl, rfl⟩

/-- C6 (amended): once the browser session is created and the
pre-navigation anti-detection script has run, every failure of the
attempt is absorbed into a typed result record, nothing escapes to the
orchestrator, and the session is always released; an unhandled exception
inside the protected block is recorded as status 执行异常, with the
attempt failed and no permanent credential error (so it stays
retryable). -/
theorem claim6_absorbed_released_amended (env : SignInEnv) (idx rc : Nat) (fin : Bool)
    (h1 : env.createOk = true) (h2 : env.hideOk = true) :
    (sign_in_account env idx rc fin).1 = RunOutcome.returned (signInBody env idx rc fin) ∧
    (sign_in_account env idx rc fin).2.1 = true ∧
    (sign_in_account env idx rc fin).2.2 = true ∧
    (env.loadOk = false →
      (signInBody env idx rc fin).jindou_status = "执行异常" ∧
      (signInBody env idx rc fin).jindou_success = false ∧
      (signInBody env idx rc fin).password_error = false) := by
  have e : sign_in_account env idx rc fin =
      (RunOutcome.returned (signInBody env idx rc fin), true, true) := by
    unfold sign_in_account
    rw [h1, h2]
    simp
  refine ⟨by rw [e], by rw [e], by rw [e], ?_⟩
  intro hl
  have e2 : signInBody env idx rc fin =
      { initResult idx rc fin with jindou_status := "执行异常" } := by
    unfold signInBody
    rw [hl]
    simp
  rw [e2]
  exact ⟨rfl, rfl, rfl⟩

def claim6WitnessEnv : SignInEnv :=
  { claim6CounterEnv with hideOk := true, loadOk := false }

theorem claim6_witness :
    claim6WitnessEnv.createOk = true ∧ claim6WitnessEnv.hideOk = true ∧
    ((sign_in_account claim6WitnessEnv 1 0 false).1 =
      RunOutcome.returned (signInBody claim6WitnessEnv 1 0 false) ∧
    (sign_in_account claim6WitnessEnv 1 0 false).2.1 = true ∧
    (sign_in_account claim6WitnessEnv 1 0 false).2.2 = true ∧
    (claim6WitnessEnv.loadOk = false →
      (signInBody claim6WitnessEnv 1 0 false).jindou_status = "执行异常" ∧
      (signInBody claim6WitnessEnv 1 0 false).jindou_success = false ∧
      (signInBody claim6WitnessEnv 1 0 false).password_error = false)) :=
  ⟨rfl, rfl, claim6_absorbed_released_amended claim6WitnessEnv 1 0 false rfl rfl⟩

/-- C7: the balance read makes at most 5 requests, returns the value of
the first successful response, refreshes the session between failed
attempts (the headers of attempt `j` are the initial headers after `j`
refresh substitutions, see `headersAt`/`applyRefresh`), and returns 0
after all 5 attempts fail. -/
theorem claim7_balance_read_retries (send : Nat → Headers → Option Int)
    (refresh : Nat → Option String × Option String) (h : Headers) (k : Nat) (v : Int)
    (hk : k ≤ 5)
    (hfail : ∀ j, j < k → send j (headersAt refresh h j) = none)
    (hstop : k = 5 ∨ send k (headersAt refresh h k) = some v) :
    get_points send refresh h = if k = 5 then (0, 5) else (v, k + 1) :=
  get_points_first_success send refresh h k v hk hfail hstop

def claim7Send : Nat → Headers → Option Int :=
  fun j _ => if j = 0 then none else some 42

def claim7Refresh : Nat → Option String × Option String :=
  fun _ => (some "token2", none)

def claim7H : Headers := { accesstoken := "token1", secretkey := "sec" }

theorem claim7_witness :
    get_points claim7Send claim7Refresh claim7H = (42, 2) := by
  have := claim7_balance_read_retries claim7Send claim7Refresh claim7H 1 42 (by omega)
    (fun j hj => by interval_cases j; rfl) (Or.inr rfl)
  simpa using this

/-- C8: with the profile fetch successful and the sign-status check
reporting not-yet-signed, the attempt's task run succeeds iff the sign-in
envelope is successful and either carries a truthy (nonzero) gain amount,
or carries an absent/zero gain amount and the voucher claim succeeds; a
failed sign-in envelope or a failed voucher claim fails the whole task. -/
theorem claim8_sign_in_success_condition (cenv : ClientEnv)
    (hu : cenv.userInfoOk = true) (hc : cenv.signCheck = some false) :
    ((execute_full_process cenv).1 = true ↔
      (match cenv.signResp with
       | none => False
       | some d => d.success = true ∧
           (gainTruthy d.gainNum = true ∨
             (gainTruthy d.gainNum = false ∧ cenv.voucherOk = true)))) := by
  cases hsr : cenv.signResp with
  | none => simp [execute_full_process, sign_in, hu, hc, hsr]
  | some d =>
    cases hds : d.success with
    | false => simp [execute_full_process, sign_in, hu, hc, hsr, hds]
    | true =>
      cases hg : gainTruthy d.gainNum with
      | true => simp [execute_full_process, sign_in, hu, hc, hsr, hds, hg]
      | false =>
        cases hv : cenv.voucherOk with
        | true => simp [execute_full_process, sign_in, hu, hc, hsr, hds, hg, hv]
        | false => simp [execute_full_process, sign_in, hu, hc, hsr, hds, hg, hv]

def claim8Env : ClientEnv :=
  { userInfoOk := true, points1 := 100, signCheck := some false
    signResp := some { success := true, gainNum := some 5 }
    voucherOk := false, points2 := 105 }

theorem claim8_witness :
    claim8Env.userInfoOk = true ∧ claim8Env.signCheck = some false ∧
    ((execute_full_process claim8Env).1 = true ↔
      (match claim8Env.signResp with
       | none => False
       | some d => d.success = true ∧
           (gainTruthy d.gainNum = true ∨
             (gainTruthy d.gainNum = false ∧ claim8Env.voucherOk = true)))) :=
  ⟨rfl, rfl, claim8_sign_in_success_condition claim8Env rfl rfl⟩


/-- C1: once an attempt records a permanent credential error, no further
attempt runs for that account in either pass, and the account's final
merged result has `taskSucceeded` false with status 密码错误 and nickname
reset to 未知.  Discovered in pass 1 (hypotheses `hm`, `hres`): the
error attempt is the last attempt of the pass (no attempt before the
last carried the error), the merged result carries the reset fields, and
the final-retry pass neither collects the account nor changes its
result.  Discovered only by the final-retry attempt (hypotheses `hj2`,
`hfail2`, `hpwd2`, the second scenario's variables): the pass-2 update
invalidates the account's merged result the same way — `taskSucceeded`
stays false, status and nickname are reset — and pass 2 ran only that
one attempt for it, after which no pass remains. -/
theorem claim1_permanent_error_stops_attempts (env : Nat → AttemptResult)
    (idx : Nat) (fenv res : Nat → AttemptResult) (n j : Nat)
    (fenv2 res2 : Nat → AttemptResult) (n2 j2 : Nat)
    (hm : (process_single_account env idx).1.password_error = true)
    (hres : res j = (process_single_account env idx).1)
    (hj2 : j2 < n2)
    (hfail2 : (res2 j2).jindou_success = false ∧ (res2 j2).password_error = false)
    (hpwd2 : (fenv2 (res2 j2).account_index).password_error = true) :
    (process_single_account env idx).1.jindou_success = false ∧
    (process_single_account env idx).1.jindou_status = "密码错误" ∧
    (process_single_account env idx).1.nickname = "未知" ∧
    ((process_single_account env idx).2.dropLast.all fun r => !r.password_error) = true ∧
    (match (process_single_account env idx).2.getLast? with
     | some r => r.password_error = true
     | none => False) ∧
    j ∉ collectFailed res n ∧
    (mainFinalPass fenv res n).1 j = res j ∧
    ((mainFinalPass fenv2 res2 n2).1 j2).password_error = true ∧
    ((mainFinalPass fenv2 res2 n2).1 j2).jindou_success = false ∧
    ((mainFinalPass fenv2 res2 n2).1 j2).jindou_status = "密码错误" ∧
    ((mainFinalPass fenv2 res2 n2).1 j2).nickname = "未知" := by
  obtain ⟨_, _, _, s4, _, s6⟩ :=
    processGo_spec env idx 4 0 false (initMerged idx) (by omega) (by omega) rfl rfl
  obtain ⟨w1, w2, w3, w4⟩ := s6 hm
  have hnotmem : j ∉ collectFailed res n := by
    intro hmem
    have hj := (mem_collectFailed res n j).mp hmem
    rw [hres] at hj
    simp [failedPred, hm] at hj
  have hstep : (mainFinalPass fenv2 res2 n2).1 j2 =
      finalUpdate (res2 j2).retry_count (res2 j2)
        (finalCall fenv2 (res2 j2).account_index ((res2 j2).retry_count + 1)) := by
    rw [mainFinalPass_apply, if_pos ((mem_collectFailed res2 n2 j2).mpr
      ⟨hj2, by simp [failedPred, hfail2.1, hfail2.2]⟩)]
  have hfinpwd : (finalCall fenv2 (res2 j2).account_index
      ((res2 j2).retry_count + 1)).password_error = true := hpwd2
  have hupd : finalUpdate (res2 j2).retry_count (res2 j2)
      (finalCall fenv2 (res2 j2).account_index ((res2 j2).retry_count + 1)) =
      { res2 j2 with
        password_error := true, jindou_status := "密码错误"
        nickname := "未知", is_final_retry := true
        retry_count := (res2 j2).retry_count + 1 } := by
    unfold finalUpdate
    rw [if_pos hfinpwd]
  refine ⟨w1, w2, w3, ?_, w4, hnotmem, ?_, ?_, ?_, ?_, ?_⟩
  · have hd : (process_single_account env idx).2 =
        (processGo env idx 4 0 false (initMerged idx)).2.2 := rfl
    rw [hd, List.all_eq_true]
    intro x hx
    have := (List.all_eq_true.mp s4) x hx
    simp only [Bool.and_eq_true] at this
    exact this.2
  · rw [mainFinalPass_apply]
    simp [hnotmem]
  · rw [hstep, hupd]
  · rw [hstep, hupd]
    exact hfail2.1
  · rw [hstep, hupd]
  · rw [hstep, hupd]

def claim1Env : Nat → AttemptResult :=
  fun _ => { initResult 1 0 false with password_error := true, jindou_status := "密码错误" }

def claim1Res : Nat → AttemptResult :=
  fun _ => (process_single_account claim1Env 1).1

def claim1Fenv : Nat → AttemptResult := fun _ => initResult 1 0 false

def claim1Res2 : Nat → AttemptResult :=
  fun _ => { initResult 2 3 false with jindou_status := "执行异常" }

def claim1Fenv2 : Nat → AttemptResult :=
  fun a => { initResult a 0 false with password_error := true, jindou_status := "密码错误" }

theorem claim1_witness :
    (process_single_account claim1Env 1).1.password_error = true ∧
    (claim1Res2 0).jindou_success = false ∧ (claim1Res2 0).password_error = false ∧
    (claim1Fenv2 (claim1Res2 0).account_index).password_error = true ∧
    ((process_single_account claim1Env 1).1.jindou_success = false ∧
    (process_single_account claim1Env 1).1.jindou_status = "密码错误" ∧
    (process_single_account claim1Env 1).1.nickname = "未知" ∧
    ((process_single_account claim1Env 1).2.dropLast.all fun r => !r.password_error) = true ∧
    (match (process_single_account claim1Env 1).2.getLast? with
     | some r => r.password_error = true
     | none => False) ∧
    0 ∉ collectFailed claim1Res 1 ∧
    (mainFinalPass claim1Fenv claim1Res 1).1 0 = claim1Res 0 ∧
    ((mainFinalPass claim1Fenv2 claim1Res2 1).1 0).password_error = true ∧
    ((mainFinalPass claim1Fenv2 claim1Res2 1).1 0).jindou_success = false ∧
    ((mainFinalPass claim1Fenv2 claim1Res2 1).1 0).jindou_status = "密码错误" ∧
    ((mainFinalPass claim1Fenv2 claim1Res2 1).1 0).nickname = "未知") :=
  ⟨by decide, by decide, by decide, by decide,
    claim1_permanent_error_stops_attempts claim1Env 1 claim1Fenv claim1Res 1 0
      claim1Fenv2 claim1Res2 1 0 (by decide) rfl (by omega)
      ⟨by decide, by decide⟩ (by decide)⟩

def claim2Env : SignInEnv :=
  { createOk := true, hideOk := true, loadOk := true, loggedIn := true
    fillOk := true, clickOk := true, pwdErr1 := false, sliderPwdErr := false
    jumped := true, token := some "tk", secret := some "sk"
    client := { userInfoOk := true, points1 := 100, signCheck := none
                signResp := none, voucherOk := false, points2 := 0 } }

/-- C2 counterexample: an attempt whose profile fetch succeeds, whose
first balance read returns 100 and whose sign-status check then fails
produces an `AttemptResult` with `initialBalance = 100`,
`finalBalance = 0` and `rewardDelta = 0`: the claimed identity
`rewardDelta = finalBalance - initialBalance` fails (0 ≠ -100), because
`calculate_jindou_difference` is only reached when the task process
completes. -/
theorem claim2_counterexample :
    (signInBody claim2Env 1 0 false).initial_jindou = 100 ∧
    (signInBody claim2Env 1 0 false).final_jindou = 0 ∧
    (signInBody claim2Env 1 0 false).jindou_reward = 0 ∧
    (signInBody claim2Env 1 0 false).jindou_reward ≠
      (signInBody claim2Env 1 0 false).final_jindou -
        (signInBody claim2Env 1 0 false).initial_jindou := by
  refine ⟨rfl, rfl, rfl, ?_⟩
  decide

/-- C2 (amended): `rewardDelta = finalBalance - initialBalance` holds for
every `AttemptResult` whose attempt completed the task process
(`taskSucceeded` true, so `calculate_jindou_difference` ran), and for
every attempt whose recorded initial balance is 0 — which covers all
paths that fail before the first balance read (login failures, password
errors, extraction failures, exceptions, profile-fetch failures).  An
attempt failing at the sign-status check or at sign-in after reading a
nonzero initial balance keeps `rewardDelta = 0` and `finalBalance = 0`,
so the unrestricted identity fails there. -/
theorem claim2_reward_delta_amended (env : SignInEnv) (idx rc : Nat) (fin : Bool)
    (h : (signInBody env idx rc fin).jindou_success = true ∨
      (signInBody env idx rc fin).initial_jindou = 0) :
    (signInBody env idx rc fin).jindou_reward =
      (signInBody env idx rc fin).final_jindou -
        (signInBody env idx rc fin).initial_jindou :=
  signInBody_delta env idx rc fin h

def claim2WitnessEnv : SignInEnv :=
  { claim2Env with
    client := { userInfoOk := true, points1 := 100, signCheck := some true
                signResp := none, voucherOk := false, points2 := 105 } }

theorem claim2_witness :
    (signInBody claim2WitnessEnv 1 0 false).jindou_success = true ∧
    (signInBody claim2WitnessEnv 1 0 false).jindou_reward =
      (signInBody claim2WitnessEnv 1 0 false).final_jindou -
        (signInBody claim2WitnessEnv 1 0 false).initial_jindou :=
  ⟨by decide,
    claim2_reward_delta_amended claim2WitnessEnv 1 0 false (Or.inl (by decide))⟩

/-- C4: after pass 1, the final-retry pass makes exactly one additional
attempt per account whose merged result is still failing without a
password error — the attempt list equals the map of `finalCall` (which
passes `retry_count = previousCount + 1` and `is_final_retry = true`)
over the collected positions — and makes no attempt for any other
account: a position is collected iff its result has `taskSucceeded`
false and `permanentCredentialError` false, collected positions are
updated by the final fold, and all others are left unchanged. -/
theorem claim4_final_retry_pass (fenv res : Nat → AttemptResult) (n j : Nat)
    (hj : j < n) :
    (mainFinalPass fenv res n).2 =
      (collectFailed res n).map
        (fun i => finalCall fenv (res i).account_index ((res i).retry_count + 1)) ∧
    ((mainFinalPass fenv res n).2.all fun r => r.is_final_retry) = true ∧
    ((mainFinalPass fenv res n).2.map fun r => r.retry_count) =
      ((collectFailed res n).map fun i => (res i).retry_count + 1) ∧
    (j ∈ collectFailed res n ↔
      (res j).jindou_success = false ∧ (res j).password_error = false) ∧
    (if failedPred (res j) = true then
      (mainFinalPass fenv res n).1 j =
        finalUpdate (res j).retry_count (res j)
          (finalCall fenv (res j).account_index ((res j).retry_count + 1))
    else (mainFinalPass fenv res n).1 j = res j) := by
  have hcalls := mainFinalPass_calls fenv res n
  refine ⟨hcalls, ?_, ?_, ?_, ?_⟩
  · rw [hcalls, List.all_eq_true]
    intro x hx
    obtain ⟨i, _, rfl⟩ := List.mem_map.mp hx
    rfl
  · rw [hcalls, List.map_map]
    rfl
  · rw [mem_collectFailed]
    simp [hj, failedPred]
  · rw [mainFinalPass_apply]
    by_cases hp : failedPred (res j) = true
    · rw [if_pos hp, if_pos ((mem_collectFailed res n j).mpr ⟨hj, hp⟩)]
    · rw [if_neg hp, if_neg (fun hmem => hp ((mem_collectFailed res n j).mp hmem).2)]

def claim4Res : Nat → AttemptResult :=
  fun i => if i = 0 then { initResult 1 3 false with jindou_status := "执行异常" }
    else { initResult 2 0 false with jindou_success := true, jindou_status := "签到成功" }

def claim4Fenv : Nat → AttemptResult :=
  fun a => { initResult a 0 false with jindou_success := true, jindou_status := "签到成功" }

theorem claim4_witness :
    (mainFinalPass claim4Fenv claim4Res 2).2 =
      (collectFailed claim4Res 2).map
        (fun i => finalCall claim4Fenv (claim4Res i).account_index
          ((claim4Res i).retry_count + 1)) ∧
    ((mainFinalPass claim4Fenv claim4Res 2).2.all fun r => r.is_final_retry) = true ∧
    ((mainFinalPass claim4Fenv claim4Res 2).2.map fun r => r.retry_count) =
      ((collectFailed claim4Res 2).map fun i => (claim4Res i).retry_count + 1) ∧
    (0 ∈ collectFailed claim4Res 2 ↔
      (claim4Res 0).jindou_success = false ∧ (claim4Res 0).password_error = false) ∧
    (if failedPred (claim4Res 0) = true then
      (mainFinalPass claim4Fenv claim4Res 2).1 0 =
        finalUpdate (claim4Res 0).retry_count (claim4Res 0)
          (finalCall claim4Fenv (claim4Res 0).account_index
            ((claim4Res 0).retry_count + 1))
    else (mainFinalPass claim4Fenv claim4Res 2).1 0 = claim4Res 0) :=
  claim4_final_retry_pass claim4Fenv claim4Res 2 0 (by omega)

/-- C10: no attempt ever produces a non-default nickname — the result of
`sign_in_account` keeps `nickname = 未知` on every path (the profile
fetch never stores one) — so the fill-forward rule for nicknames is
vacuous: the pass-1 merged result and the result left by the final-retry
pass both report nickname 未知. -/
theorem claim10_nickname_always_unknown (env : SignInEnv) (idx rc : Nat) (fin : Bool)
    (penv : Nat → AttemptResult) (pidx : Nat)
    (hp : ∀ k, (penv k).nickname = "未知")
    (fenv res : Nat → AttemptResult) (n j : Nat)
    (hf : ∀ a, (fenv a).nickname = "未知")
    (hres : (res j).nickname = "未知") :
    (signInBody env idx rc fin).nickname = "未知" ∧
    (process_single_account penv pidx).1.nickname = "未知" ∧
    ((mainFinalPass fenv res n).1 j).nickname = "未知" := by
  refine ⟨signInBody_nickname env idx rc fin, ?_, ?_⟩
  · exact processGo_nickname penv pidx hp 4 0 false (initMerged pidx) rfl
  · rw [mainFinalPass_apply]
    split
    · exact finalUpdate_nickname _ _ _ hres (hf _)
    · exact hres

def claim10SEnv : SignInEnv :=
  { createOk := true, hideOk := true, loadOk := true, loggedIn := false
    fillOk := true, clickOk := true, pwdErr1 := false, sliderPwdErr := false
    jumped := true, token := some "tk", secret := some "sk"
    client := { userInfoOk := true, points1 := 7, signCheck := some false
                signResp := some { success := true, gainNum := some 2 }
                voucherOk := false, points2 := 9 } }

def claim10Penv : Nat → AttemptResult :=
  fun _ => { initResult 1 0 false with jindou_status := "跳转失败" }

def claim10Res : Nat → AttemptResult :=
  fun _ => { initResult 1 3 false with jindou_status := "跳转失败" }

def claim10Fenv : Nat → AttemptResult :=
  fun a => { initResult a 4 true with jindou_success := true, jindou_status := "签到成功" }

theorem claim10_witness :
    (signInBody claim10SEnv 1 0 false).nickname = "未知" ∧
    (process_single_account claim10Penv 1).1.nickname = "未知" ∧
    ((mainFinalPass claim10Fenv claim10Res 1).1 0).nickname = "未知" :=
  claim10_nickname_always_unknown claim10SEnv 1 0 false claim10Penv 1 (fun _ => rfl)
    claim10Fenv claim10Res 1 0 (fun _ => rfl) rfl

end JLC
